import Mathlib

/-!
# Verification of the RMH-BloodDonation server

Shallow embedding of the Express/MongoDB backend in `server/server.js`.
The state of the MongoDB database (the `donors` collection, the singleton
`stats` document and a logical wall clock standing for `new Date()`) is made
explicit, and each HTTP handler becomes a pure function from a request and a
database state to a response and a new state.

Modelling notes:
- `new Date()` is modelled by a `Nat`-valued logical clock that strictly
  increases between storage writes; real-time millisecond ties are abstracted
  away, so donation timestamps are strictly increasing.
- Request-body fields arrive as JSON values.  The three textual fields
  (`fullName`, `bloodGroup`, `year`) are modelled as `Option String`
  (absent or a string); a non-string value there would make the handler throw
  (e.g. `fullName.trim` on a number) and is outside the model.  The `age`
  field is modelled by `JsVal`, covering both the string and numeric forms
  the client may send.
- JavaScript `parseInt` is modelled for decimal inputs (skip leading
  whitespace, optional sign, longest digit prefix, `NaN` when no digit); the
  legacy `0x` hexadecimal prefix is irrelevant to the fields at hand and not
  modelled.
- The handlers' `donorsCollection`/`statsCollection` null-guards correspond
  to an unconnected database; the model covers the connected case that all
  claims are about.
-/

/-- A JSON value as seen by the handler for a loosely-typed body field. -/
inductive JsVal where
  | undef : JsVal
  | str : String → JsVal
  | num : Int → JsVal
deriving DecidableEq, Repr

/-- JavaScript truthiness of a body field value: `undefined`, `""` and `0`
are falsy. -/
def JsVal.truthy : JsVal → Bool
  | .undef => false
  | .str s => !(s == "")
  | .num n => !(n == 0)

/-- Truthiness of an absent-or-string field (`!field` in the source). -/
def strTruthy : Option String → Bool
  | none => false
  | some s => !(s == "")

/-- Longest prefix of decimal digits of a character list, with the rest. -/
def takeDigits : List Char → List Char × List Char
  | [] => ([], [])
  | c :: cs =>
    if c.isDigit then
      let p := takeDigits cs
      (c :: p.1, p.2)
    else ([], c :: cs)

/-- Value of a list of decimal digits, most significant first. -/
def digitsVal (ds : List Char) : Nat :=
  ds.foldl (fun acc c => 10 * acc + (c.toNat - 48)) 0

/-- JavaScript `parseInt` on a character list (decimal): skip leading
whitespace, read an optional sign, then the longest digit prefix; `none`
stands for `NaN`. -/
def parseIntChars (cs : List Char) : Option Int :=
  let cs₁ := cs.dropWhile Char.isWhitespace
  match cs₁ with
  | '-' :: rest =>
      let p := takeDigits rest
      if p.1.isEmpty then none else some (-(digitsVal p.1 : Int))
  | '+' :: rest =>
      let p := takeDigits rest
      if p.1.isEmpty then none else some (digitsVal p.1 : Int)
  | rest =>
      let p := takeDigits rest
      if p.1.isEmpty then none else some (digitsVal p.1 : Int)

/-- JavaScript `parseInt` on a string. -/
def parseIntStr (s : String) : Option Int :=
  parseIntChars s.data

/-- JavaScript `String.prototype.trim`: strip leading and trailing
whitespace. -/
def jsTrim (s : String) : String :=
  ⟨((s.data.dropWhile Char.isWhitespace).reverse.dropWhile Char.isWhitespace).reverse⟩

/-- `parseInt(v)` on a body value: `undefined` stringifies to `"undefined"`
(`NaN`); an integer number round-trips through its decimal string. -/
def jsParseInt : JsVal → Option Int
  | .undef => none
  | .num n => some n
  | .str s => parseIntStr s

/-- A document of the `donors` collection (`donorDoc` in the source). -/
structure DonorDoc where
  fullName : String
  bloodGroup : String
  age : Int
  year : String
  donatedAt : Nat
deriving DecidableEq, Repr

/-- The singleton document of the `stats` collection. -/
structure StatsDoc where
  total_blood_units : Int
  last_updated : Nat
deriving DecidableEq, Repr

/-- The database state: donor documents in insertion order, the optional
`identifier: "global"` stats document, and the logical clock. -/
structure DB where
  donors : List DonorDoc
  stats : Option StatsDoc
  clock : Nat
deriving DecidableEq, Repr

/-- `validBloodGroups` from the donate handler. -/
def validBloodGroups : List String :=
  ["A+", "A-", "B+", "B-", "AB+", "AB-", "O+", "O-"]

/-- `validYears` from the donate handler. -/
def validYears : List String :=
  ["FY", "SY", "TY", "Final Year"]

/-- Outcome of `POST /api/donate`: a `res.status(400).json` rejection with
its message, or the `201` acceptance carrying the stored donor document and
the reported running total. -/
inductive DonateResult where
  | rejected : Nat → String → DonateResult
  | accepted : DonorDoc → Int → DonateResult
deriving DecidableEq, Repr

/-- Whether the outcome is the `201` acceptance. -/
def DonateResult.isAccepted : DonateResult → Bool
  | .accepted _ _ => true
  | _ => false

/-- The request body of `POST /api/donate`. -/
structure DonateReq where
  fullName : Option String
  bloodGroup : Option String
  age : JsVal
  year : Option String
deriving DecidableEq, Repr

/-- The `POST /api/donate` handler: field-presence check, age check
(`parseInt`, `isNaN || < 18`), blood-group and year membership checks, then
`insertOne` of the trimmed document followed by the atomic
`findOneAndUpdate` `$inc` (with upsert) on the stats document. -/
def donate (db : DB) (r : DonateReq) : DonateResult × DB :=
  if !(strTruthy r.fullName) || !(strTruthy r.bloodGroup) ||
      !(r.age.truthy) || !(strTruthy r.year) then
    (.rejected 400 "All fields are required", db)
  else
    match jsParseInt r.age with
    | none => (.rejected 400 "Donor must be at least 18 years old", db)
    | some ageNum =>
      if ageNum < 18 then
        (.rejected 400 "Donor must be at least 18 years old", db)
      else if !(validBloodGroups.contains (r.bloodGroup.getD "")) then
        (.rejected 400 "Invalid blood group", db)
      else if !(validYears.contains (r.year.getD "")) then
        (.rejected 400 "Invalid year selection", db)
      else
        let donorDoc : DonorDoc :=
          { fullName := jsTrim (r.fullName.getD "")
            bloodGroup := r.bloodGroup.getD ""
            age := ageNum
            year := r.year.getD ""
            donatedAt := db.clock }
        let newTotal : Int :=
          match db.stats with
          | some s => s.total_blood_units + 1
          | none => 1
        (.accepted donorDoc newTotal,
          { donors := db.donors ++ [donorDoc]
            stats := some { total_blood_units := newTotal, last_updated := db.clock + 1 }
            clock := db.clock + 2 })

/-- The `POST /api/sync-stats` handler: `countDocuments()` on the donors
collection, then `updateOne` with `$set` and upsert on the stats document;
returns the recounted total. -/
def syncStats (db : DB) : Int × DB :=
  let donorCount : Int := db.donors.length
  (donorCount,
    { db with
        stats := some { total_blood_units := donorCount, last_updated := db.clock }
        clock := db.clock + 1 })

/-- The stats-ensuring step of `initMongo`: `findOne({identifier:'global'})`
and `insertOne` of a zero total only when absent. -/
def ensureStats (stats : Option StatsDoc) (now : Nat) : Option StatsDoc :=
  match stats with
  | none => some { total_blood_units := 0, last_updated := now }
  | some s => some s

/-- `sort({ donatedAt: -1 })`: donation timestamp descending. -/
def donatedDesc (a b : DonorDoc) : Prop :=
  b.donatedAt ≤ a.donatedAt

instance : DecidableRel donatedDesc := fun a b =>
  inferInstanceAs (Decidable (b.donatedAt ≤ a.donatedAt))

/-- The projection `{ fullName, bloodGroup, donatedAt }` returned by
`GET /api/donors`. -/
structure DonorView where
  fullName : String
  bloodGroup : String
  donatedAt : Nat
deriving DecidableEq, Repr

/-- Projection of a stored donor document to its public view. -/
def donorView (d : DonorDoc) : DonorView :=
  { fullName := d.fullName, bloodGroup := d.bloodGroup, donatedAt := d.donatedAt }

/-- The query of `GET /api/donors`: sort by `donatedAt` descending, `limit`,
and project each document. -/
def listDonors (db : DB) (limit : Nat) : List DonorView :=
  (((db.donors.insertionSort donatedDesc)).take limit).map donorView

/-- The limit computation of `GET /api/donors`:
`parseInt(req.query.limit) || 10` (the query parameter is absent or a
string; `NaN` and `0` are falsy). -/
def effectiveLimit (limitQ : Option String) : Int :=
  match jsParseInt (match limitQ with | none => .undef | some s => .str s) with
  | none => 10
  | some n => if n == 0 then 10 else n

example : donate ⟨[], none, 0⟩ ⟨some "Asha Rao", some "O-", .str "22", some "SY"⟩ =
    (.accepted ⟨"Asha Rao", "O-", 22, "SY", 0⟩ 1,
      ⟨[⟨"Asha Rao", "O-", 22, "SY", 0⟩], some ⟨1, 1⟩, 2⟩) := by decide

example : parseIntStr "18.9" = some 18 := by decide
example : parseIntStr "20abc" = some 20 := by decide
example : parseIntStr "abc" = none := by decide
example : effectiveLimit (some "0") = 10 := by decide
example : listDonors ⟨[⟨"A", "A+", 20, "FY", 0⟩, ⟨"B", "B+", 21, "SY", 1⟩], none, 2⟩ 1 =
    [⟨"B", "B+", 1⟩] := by decide

/-- Well-formedness of a database state: every stored donation timestamp
predates the current clock (each `new Date()` is later than all earlier
ones). -/
def DB.WF (db : DB) : Prop :=
  ∀ d ∈ db.donors, d.donatedAt < db.clock

/-- The four-field presence check of the donate handler, as a predicate. -/
def fieldsPresent (r : DonateReq) : Bool :=
  strTruthy r.fullName && strTruthy r.bloodGroup && r.age.truthy && strTruthy r.year

/-- The donor document stored by an accepted submission: trimmed name,
parsed age, the current clock as `donatedAt`. -/
def acceptedDonor (db : DB) (r : DonateReq) (n : Int) : DonorDoc :=
  { fullName := jsTrim (r.fullName.getD "")
    bloodGroup := r.bloodGroup.getD ""
    age := n
    year := r.year.getD ""
    donatedAt := db.clock }

/-- The total reported after the `$inc` upsert on the stats document. -/
def bumpedTotal (db : DB) : Int :=
  match db.stats with
  | some s => s.total_blood_units + 1
  | none => 1

theorem fieldsPresent_split {r : DonateReq} (h : fieldsPresent r = true) :
    strTruthy r.fullName = true ∧ strTruthy r.bloodGroup = true ∧
    r.age.truthy = true ∧ strTruthy r.year = true := by
  simpa [fieldsPresent, Bool.and_eq_true, and_assoc] using h

/-- Characterization of an accepted donation: with all four fields present,
the age parsing to `n ≥ 18`, and blood group and year in their enumerations,
the handler stores the trimmed document and bumps the stats total. -/
theorem donate_accepted_eq (db : DB) (r : DonateReq) (n : Int)
    (hp : fieldsPresent r = true)
    (ha : jsParseInt r.age = some n) (h18 : 18 ≤ n)
    (hbg : (r.bloodGroup.getD "") ∈ validBloodGroups)
    (hy : (r.year.getD "") ∈ validYears) :
    donate db r =
      (.accepted (acceptedDonor db r n) (bumpedTotal db),
        { donors := db.donors ++ [acceptedDonor db r n]
          stats := some { total_blood_units := bumpedTotal db, last_updated := db.clock + 1 }
          clock := db.clock + 2 }) := by
  obtain ⟨h1, h2, h3, h4⟩ := fieldsPresent_split hp
  have hbg2 : validBloodGroups.contains (r.bloodGroup.getD "") = true :=
    List.elem_iff.2 hbg
  have hy2 : validYears.contains (r.year.getD "") = true :=
    List.elem_iff.2 hy
  have h18n : ¬ (n < 18) := not_lt.2 h18
  simp [donate, h1, h2, h3, h4, ha, h18n, hbg2, hy2, hbg, hy, acceptedDonor, bumpedTotal]

/-- C1: `POST /api/sync-stats` overwrites the aggregate total, whatever its
prior (possibly drifted or absent) value, with the exact count of persisted
donor records; the donor collection is untouched, so a second invocation
returns the same total, still equal to the donor count. -/
theorem syncStats_recount_idempotent (db : DB) :
    (syncStats db).1 = (db.donors.length : Int) ∧
    ((syncStats db).2).stats =
      some { total_blood_units := (db.donors.length : Int), last_updated := db.clock } ∧
    ((syncStats db).2).donors = db.donors ∧
    (syncStats ((syncStats db).2)).1 = (syncStats db).1 := by
  refine ⟨rfl, rfl, rfl, rfl⟩

/-- C2: a donation submission in which any of the four fields is absent or
the empty string is rejected with status 400 and the all-fields-required
message, and the database state (donor records and stats aggregate) is
returned unchanged. -/
theorem donate_missing_field_rejects (db : DB) (r : DonateReq)
    (h : r.fullName = none ∨ r.fullName = some "" ∨
         r.bloodGroup = none ∨ r.bloodGroup = some "" ∨
         r.age = .undef ∨ r.age = .str "" ∨
         r.year = none ∨ r.year = some "") :
    donate db r = (.rejected 400 "All fields are required", db) := by
  rcases h with h | h | h | h | h | h | h | h <;>
    simp [donate, h, strTruthy, JsVal.truthy]

theorem donate_missing_field_rejects_witness :
    donate { donors := [], stats := none, clock := 0 }
        { fullName := none, bloodGroup := some "A+", age := .str "20", year := some "FY" } =
      (.rejected 400 "All fields are required", { donors := [], stats := none, clock := 0 }) :=
  donate_missing_field_rejects _ _ (Or.inl rfl)

/-- C8: the stats-ensuring step of initialization creates the singleton
stats record with total 0 exactly when none exists, leaves an existing
record (and hence its total) unchanged, and running it twice equals running
it once. -/
theorem ensureStats_idempotent :
    (∀ now : Nat, ensureStats none now =
      some { total_blood_units := 0, last_updated := now }) ∧
    (∀ (s : StatsDoc) (now : Nat), ensureStats (some s) now = some s) ∧
    (∀ (st : Option StatsDoc) (now now2 : Nat),
      ensureStats (ensureStats st now) now2 = ensureStats st now) := by
  refine ⟨fun _ => rfl, fun _ _ => rfl, fun st now now2 => ?_⟩
  cases st <;> rfl

/-- C9: the donor-list handler's limit falls back to the default 10 when
the query parameter is absent, fails to parse (`parseInt` yields `NaN`), or
parses to 0. -/
theorem donors_limit_default :
    effectiveLimit none = 10 ∧
    (∀ s : String, parseIntStr s = none → effectiveLimit (some s) = 10) ∧
    effectiveLimit (some "0") = 10 := by
  refine ⟨rfl, fun s h => ?_, by decide⟩
  simp [effectiveLimit, jsParseInt, h]

theorem donors_limit_default_witness :
    parseIntStr "abc" = none ∧ effectiveLimit (some "abc") = 10 :=
  ⟨by decide, donors_limit_default.2.1 "abc" (by decide)⟩

/-- C3: with all four fields present, an age parsing below 18 is rejected with
the age-specific message and the state is unchanged; an age of exactly 18 with
a valid blood group and year is accepted. -/
theorem donate_age_boundary :
    (∀ (db : DB) (r : DonateReq) (n : Int),
        fieldsPresent r = true → jsParseInt r.age = some n → n < 18 →
        donate db r = (.rejected 400 "Donor must be at least 18 years old", db)) ∧
    (∀ (db : DB) (r : DonateReq),
        fieldsPresent r = true → jsParseInt r.age = some 18 →
        (r.bloodGroup.getD "") ∈ validBloodGroups →
        (r.year.getD "") ∈ validYears →
        (donate db r).1.isAccepted = true) := by
  constructor
  · intro db r n hp ha hn
    obtain ⟨h1, h2, h3, h4⟩ := fieldsPresent_split hp
    simp [donate, h1, h2, h3, h4, ha, hn]
  · intro db r hp ha hbg hy
    rw [donate_accepted_eq db r 18 hp ha le_rfl hbg hy]
    rfl

theorem donate_age_boundary_witness :
    donate { donors := [], stats := none, clock := 0 }
        { fullName := some "Asha Rao", bloodGroup := some "O-", age := .str "17", year := some "SY" } =
      (.rejected 400 "Donor must be at least 18 years old",
        { donors := [], stats := none, clock := 0 }) ∧
    (donate { donors := [], stats := none, clock := 0 }
        { fullName := some "Asha Rao", bloodGroup := some "O-", age := .str "18", year := some "SY" }).1.isAccepted
      = true :=
  ⟨donate_age_boundary.1 _ _ 17 (by decide) (by decide) (by decide),
   donate_age_boundary.2 _ _ (by decide) (by decide) (by decide) (by decide)⟩

/-- C4: with the field-presence and age checks passing, a blood-group string
that is not (case-sensitively) one of the 8 canonical values is rejected with
the invalid-blood-group message and the state is unchanged. -/
theorem donate_invalid_blood_group_rejects (db : DB) (r : DonateReq) (n : Int)
    (hp : fieldsPresent r = true)
    (ha : jsParseInt r.age = some n) (h18 : 18 ≤ n)
    (hbg : (r.bloodGroup.getD "") ∉ validBloodGroups) :
    donate db r = (.rejected 400 "Invalid blood group", db) := by
  obtain ⟨h1, h2, h3, h4⟩ := fieldsPresent_split hp
  have h18n : ¬ (n < 18) := not_lt.2 h18
  have hbg2 : validBloodGroups.contains (r.bloodGroup.getD "") = false := by
    rw [← Bool.not_eq_true]
    exact fun hc => hbg (List.elem_iff.1 hc)
  simp [donate, h1, h2, h3, h4, ha, h18n, hbg2, hbg]

theorem donate_invalid_blood_group_rejects_witness :
    ("a+" ∉ validBloodGroups) ∧
    donate { donors := [], stats := none, clock := 0 }
        { fullName := some "Asha Rao", bloodGroup := some "a+", age := .str "22", year := some "SY" } =
      (.rejected 400 "Invalid blood group", { donors := [], stats := none, clock := 0 }) :=
  ⟨by decide,
   donate_invalid_blood_group_rejects _ _ 22 (by decide) (by decide) (by decide) (by decide)⟩

/-- C10: an age string whose longest decimal prefix parses to `n ≥ 18` passes
validation (given the other checks pass) and the persisted document's age is
the integer `n`, not the original string. -/
theorem donate_age_truncated_prefix (db : DB) (r : DonateReq) (n : Int)
    (hp : fieldsPresent r = true)
    (ha : jsParseInt r.age = some n) (h18 : 18 ≤ n)
    (hbg : (r.bloodGroup.getD "") ∈ validBloodGroups)
    (hy : (r.year.getD "") ∈ validYears) :
    (donate db r).1.isAccepted = true ∧
    (donate db r).2.donors = db.donors ++ [acceptedDonor db r n] := by
  rw [donate_accepted_eq db r n hp ha h18 hbg hy]
  exact ⟨rfl, rfl⟩

theorem donate_age_truncated_prefix_witness :
    (parseIntStr "18.9" = some 18 ∧
      (donate { donors := [], stats := none, clock := 0 }
          { fullName := some "Asha Rao", bloodGroup := some "O-", age := .str "18.9", year := some "SY" }).1.isAccepted
        = true ∧
      (donate { donors := [], stats := none, clock := 0 }
          { fullName := some "Asha Rao", bloodGroup := some "O-", age := .str "18.9", year := some "SY" }).2.donors
        = [{ fullName := "Asha Rao", bloodGroup := "O-", age := 18, year := "SY", donatedAt := 0 }]) ∧
    (parseIntStr "20abc" = some 20 ∧
      (donate { donors := [], stats := none, clock := 0 }
          { fullName := some "Asha Rao", bloodGroup := some "O-", age := .str "20abc", year := some "SY" }).1.isAccepted
        = true ∧
      (donate { donors := [], stats := none, clock := 0 }
          { fullName := some "Asha Rao", bloodGroup := some "O-", age := .str "20abc", year := some "SY" }).2.donors
        = [{ fullName := "Asha Rao", bloodGroup := "O-", age := 20, year := "SY", donatedAt := 0 }]) :=
  ⟨⟨by decide,
    donate_age_truncated_prefix _ _ 18 (by decide) (by decide) (by decide) (by decide) (by decide)⟩,
   ⟨by decide,
    donate_age_truncated_prefix _ _ 20 (by decide) (by decide) (by decide) (by decide) (by decide)⟩⟩

/-- Inversion of an accepted donation: the stored document's age is the
parsed age (hence at least 18), its name is the trimmed input, and it is
appended to the donor collection. -/
theorem donate_accepted_inv (db : DB) (r : DonateReq) (d : DonorDoc) (tot : Int) (db2 : DB)
    (h : donate db r = (.accepted d tot, db2)) :
    18 ≤ d.age ∧ d.fullName = jsTrim (r.fullName.getD "") ∧
    db2.donors = db.donors ++ [d] := by
  unfold donate at h
  split at h
  · simp at h
  · split at h
    · simp at h
    · split at h
      · simp at h
      · split at h
        · simp at h
        · split at h
          · simp at h
          · rename_i ageNum hage hlt hbg hy
            simp only [Prod.mk.injEq, DonateResult.accepted.injEq] at h
            obtain ⟨⟨hd, -⟩, hdb⟩ := h
            subst hd
            subst hdb
            refine ⟨?_, rfl, rfl⟩
            simpa using Int.not_lt.1 hlt

/-- C6 counterexample: a submission with age "150" is accepted and persisted
with age 150, which exceeds the claimed inclusive upper bound of 100; the
handler enforces no upper bound on age. -/
theorem donate_age_over_100_persisted :
    (donate { donors := [], stats := none, clock := 0 }
        { fullName := some "Asha Rao", bloodGroup := some "O-", age := .str "150", year := some "SY" }).2.donors
      = [{ fullName := "Asha Rao", bloodGroup := "O-", age := 150, year := "SY", donatedAt := 0 }] ∧
    ¬ ((150 : Int) ≤ 100) := by
  exact ⟨by decide, by decide⟩

/-- C6 (amended): every donor record accepted by the donation handler and
persisted to storage has an integer age of at least 18; no upper bound is
enforced. -/
theorem donate_persisted_age_lower_bound (db : DB) (r : DonateReq)
    (d : DonorDoc) (tot : Int) (db2 : DB)
    (h : donate db r = (.accepted d tot, db2)) :
    18 ≤ d.age ∧ db2.donors = db.donors ++ [d] := by
  obtain ⟨h1, -, h3⟩ := donate_accepted_inv db r d tot db2 h
  exact ⟨h1, h3⟩

theorem donate_persisted_age_lower_bound_witness :
    18 ≤ ({ fullName := "Asha Rao", bloodGroup := "O-", age := 22, year := "SY",
            donatedAt := 0 } : DonorDoc).age ∧
    ({ donors := [{ fullName := "Asha Rao", bloodGroup := "O-", age := 22, year := "SY", donatedAt := 0 }],
       stats := some { total_blood_units := 1, last_updated := 1 }, clock := 2 } : DB).donors
      = ({ donors := [], stats := none, clock := 0 } : DB).donors ++
        [{ fullName := "Asha Rao", bloodGroup := "O-", age := 22, year := "SY", donatedAt := 0 }] :=
  donate_persisted_age_lower_bound
    { donors := [], stats := none, clock := 0 }
    { fullName := some "Asha Rao", bloodGroup := some "O-", age := .str "22", year := some "SY" }
    { fullName := "Asha Rao", bloodGroup := "O-", age := 22, year := "SY", donatedAt := 0 }
    1
    { donors := [{ fullName := "Asha Rao", bloodGroup := "O-", age := 22, year := "SY", donatedAt := 0 }],
      stats := some { total_blood_units := 1, last_updated := 1 }, clock := 2 }
    (by decide)

/-- C7 counterexample: the name " " (a single space) passes the presence
check, and the persisted record's name is the empty string — empty after
trimming and below the claimed 2-character minimum. -/
theorem donate_short_name_persisted :
    (donate { donors := [], stats := none, clock := 0 }
        { fullName := some " ", bloodGroup := some "A+", age := .str "18", year := some "FY" }).2.donors
      = [{ fullName := "", bloodGroup := "A+", age := 18, year := "FY", donatedAt := 0 }] ∧
    ¬ (2 ≤ ("" : String).length) := by
  exact ⟨by decide, by decide⟩

/-- C7 (amended): every donor record accepted by the donation handler and
persisted to storage has a full name equal to the submitted name with
leading and trailing whitespace removed; it is not guaranteed to be
non-empty or at least 2 characters after trimming. -/
theorem donate_persisted_name_trimmed (db : DB) (r : DonateReq)
    (d : DonorDoc) (tot : Int) (db2 : DB)
    (h : donate db r = (.accepted d tot, db2)) :
    d.fullName = jsTrim (r.fullName.getD "") ∧ db2.donors = db.donors ++ [d] := by
  obtain ⟨-, h2, h3⟩ := donate_accepted_inv db r d tot db2 h
  exact ⟨h2, h3⟩

theorem donate_persisted_name_trimmed_witness :
    ({ fullName := "Asha Rao", bloodGroup := "O-", age := 22, year := "SY",
       donatedAt := 0 } : DonorDoc).fullName = jsTrim "  Asha Rao  " ∧
    ({ donors := [{ fullName := "Asha Rao", bloodGroup := "O-", age := 22, year := "SY", donatedAt := 0 }],
       stats := some { total_blood_units := 1, last_updated := 1 }, clock := 2 } : DB).donors
      = ({ donors := [], stats := none, clock := 0 } : DB).donors ++
        [{ fullName := "Asha Rao", bloodGroup := "O-", age := 22, year := "SY", donatedAt := 0 }] :=
  donate_persisted_name_trimmed
    { donors := [], stats := none, clock := 0 }
    { fullName := some "  Asha Rao  ", bloodGroup := some "O-", age := .str "22", year := some "SY" }
    { fullName := "Asha Rao", bloodGroup := "O-", age := 22, year := "SY", donatedAt := 0 }
    1
    { donors := [{ fullName := "Asha Rao", bloodGroup := "O-", age := 22, year := "SY", donatedAt := 0 }],
      stats := some { total_blood_units := 1, last_updated := 1 }, clock := 2 }
    (by decide)

instance : IsTotal DonorDoc donatedDesc :=
  ⟨fun a b => Nat.le_total b.donatedAt a.donatedAt⟩

instance : IsTrans DonorDoc donatedDesc :=
  ⟨fun _ _ _ hab hbc => le_trans hbc hab⟩

/-- In a list whose member `d` has a strictly larger timestamp than every
other member, `d` comes first after the descending sort. -/
theorem head_insertionSort_strict_max (l : List DonorDoc) (d : DonorDoc)
    (hd : d ∈ l) (hmax : ∀ x ∈ l, x = d ∨ x.donatedAt < d.donatedAt) :
    (l.insertionSort donatedDesc).head? = some d := by
  have hperm : (l.insertionSort donatedDesc).Perm l :=
    List.perm_insertionSort donatedDesc l
  have hsorted : List.Sorted donatedDesc (l.insertionSort donatedDesc) :=
    List.sorted_insertionSort donatedDesc l
  cases hs : l.insertionSort donatedDesc with
  | nil =>
    rw [hs] at hperm
    exact absurd (hperm.mem_iff.2 hd) (List.not_mem_nil d)
  | cons h t =>
    rw [hs] at hperm hsorted
    have hh : h ∈ l := hperm.mem_iff.1 (List.mem_cons_self h t)
    rcases hmax h hh with heq | hlt
    · simp [heq]
    · exfalso
      have hdm : d ∈ h :: t := hperm.mem_iff.2 hd
      have hdt : d ∈ t := by
        rcases List.mem_cons.1 hdm with heq2 | hdt
        · rw [heq2] at hlt
          exact absurd hlt (lt_irrefl _)
        · exact hdt
      have hhd : donatedDesc h d := (List.pairwise_cons.1 hsorted).1 d hdt
      unfold donatedDesc at hhd
      omega

/-- Taking at least one element preserves the head. -/
theorem head_take_of_pos {α : Type} (l : List α) (n : Nat) (hn : 1 ≤ n) :
    (l.take n).head? = l.head? := by
  cases l with
  | nil => simp
  | cons a t =>
    cases n with
    | zero => omega
    | succ m => simp

/-- C5: after a valid donation into a well-formed database, listing donors
with any limit ≥ 1 yields the new donor's projection first; the returned
list is ordered by donation timestamp descending and its length is at most
the limit (it is a projection of sorted, truncated donor documents). -/
theorem donate_then_list_roundtrip (db : DB) (r : DonateReq) (n : Int) (limit : Nat)
    (hwf : db.WF) (hlim : 1 ≤ limit)
    (hp : fieldsPresent r = true)
    (ha : jsParseInt r.age = some n) (h18 : 18 ≤ n)
    (hbg : (r.bloodGroup.getD "") ∈ validBloodGroups)
    (hy : (r.year.getD "") ∈ validYears) :
    (listDonors (donate db r).2 limit).head? = some (donorView (acceptedDonor db r n)) ∧
    List.Pairwise (fun a b : DonorView => b.donatedAt ≤ a.donatedAt)
      (listDonors (donate db r).2 limit) ∧
    (listDonors (donate db r).2 limit).length ≤ limit := by
  rw [donate_accepted_eq db r n hp ha h18 hbg hy]
  have hmem : acceptedDonor db r n ∈ db.donors ++ [acceptedDonor db r n] :=
    List.mem_append_right _ (List.mem_singleton.2 rfl)
  have hmax : ∀ x ∈ db.donors ++ [acceptedDonor db r n],
      x = acceptedDonor db r n ∨ x.donatedAt < (acceptedDonor db r n).donatedAt := by
    intro x hx
    rcases List.mem_append.1 hx with hx | hx
    · right
      have hcl := hwf x hx
      simpa [acceptedDonor] using hcl
    · left
      exact List.mem_singleton.1 hx
  have hhead := head_insertionSort_strict_max _ _ hmem hmax
  have hsorted : List.Sorted donatedDesc
      ((db.donors ++ [acceptedDonor db r n]).insertionSort donatedDesc) :=
    List.sorted_insertionSort donatedDesc _
  refine ⟨?_, ?_, ?_⟩
  · simp only [listDonors]
    rw [List.head?_map, head_take_of_pos _ _ hlim, hhead]
    rfl
  · simp only [listDonors]
    rw [List.pairwise_map]
    exact List.Pairwise.sublist (List.take_sublist _ _) hsorted
  · simp only [listDonors, List.length_map, List.length_take]
    exact inf_le_left

theorem donate_then_list_roundtrip_witness :
    (listDonors
        (donate
          { donors := [{ fullName := "Old Donor", bloodGroup := "A+", age := 30, year := "FY", donatedAt := 0 }],
            stats := some { total_blood_units := 1, last_updated := 0 }, clock := 1 }
          { fullName := some "Asha Rao", bloodGroup := some "O-", age := .str "22", year := some "SY" }).2
        2).head?
      = some { fullName := "Asha Rao", bloodGroup := "O-", donatedAt := 1 } ∧
    List.Pairwise (fun a b : DonorView => b.donatedAt ≤ a.donatedAt)
      (listDonors
        (donate
          { donors := [{ fullName := "Old Donor", bloodGroup := "A+", age := 30, year := "FY", donatedAt := 0 }],
            stats := some { total_blood_units := 1, last_updated := 0 }, clock := 1 }
          { fullName := some "Asha Rao", bloodGroup := some "O-", age := .str "22", year := some "SY" }).2
        2) ∧
    (listDonors
        (donate
          { donors := [{ fullName := "Old Donor", bloodGroup := "A+", age := 30, year := "FY", donatedAt := 0 }],
            stats := some { total_blood_units := 1, last_updated := 0 }, clock := 1 }
          { fullName := some "Asha Rao", bloodGroup := some "O-", age := .str "22", year := some "SY" }).2
        2).length ≤ 2 := by
  refine donate_then_list_roundtrip _ _ 22 2 ?_ ?_ ?_ ?_ ?_ ?_ ?_
  · intro d hd
    rw [List.mem_singleton.1 hd]
    decide
  · decide
  · decide
  · decide
  · decide
  · decide
  · decide
